import Mathlib

/-!
Verification development for the Dalal-Street stock scoring engine.

The repository contains two near-duplicate copies of a `StockRanker` class:
a strict batch variant in `scripts/portfolioAlloter.py` and a soft
interactive variant in `scripts/streamlit_app_pa.py`.  Both convert a fixed
set of per-stock measurements into per-factor scores on a 0-100 scale and
combine them, via a weight configuration, into an allocation metric in [5,10].

Real numbers of the Python source are modelled as rationals (`ℚ`); Python
exceptions are modelled with `Except`; the Python dicts for weights and
scores are modelled as association lists of `String × ℚ` kept in the
source's insertion order.  `round(x, 2)` is modelled as round-half-to-even
at two decimal digits, matching Python's `round`.
-/

/-- Error value modelling the two kinds of Python exception that the scoring
code can raise: `KeyError` (a missing dict key, carrying the key) and
`ValueError` (an invalid value, carrying the formatted message). -/
inductive EvalErr where
  | keyError (field : String)
  | valueError (msg : String)
deriving DecidableEq, Repr

/-- Model of Python's `math.isclose(a, b, rel_tol=..., abs_tol=...)`:
`abs(a-b) <= max(rel_tol * max(abs(a), abs(b)), abs_tol)`. -/
def isclose (a b rel_tol abs_tol : ℚ) : Bool :=
  |a - b| ≤ max (rel_tol * max |a| |b|) abs_tol

/-- Round-half-to-even to an integer, as Python's builtin `round` does. -/
def roundHalfEven (q : ℚ) : ℤ :=
  let f := ⌊q⌋
  let r := q - (f : ℚ)
  if r < 1/2 then f
  else if 1/2 < r then f + 1
  else if f % 2 = 0 then f else f + 1

/-- Model of Python's `round(x, 2)`: round half to even at 2 decimal digits. -/
def round2 (q : ℚ) : ℚ :=
  (roundHalfEven (q * 100) : ℚ) / 100

/-- An input record for one evaluation (the `data` dict of
`calculate_metric`).  Every field is an `Option` so that a missing dict key
can be represented; a lookup of a missing field raises `KeyError`. -/
structure StockData where
  stock_pe : Option ℚ
  industry_pe : Option ℚ
  peg_ratio : Option ℚ
  rsi : Option ℚ
  de_ratio : Option ℚ
  profit_growth_3y_cagr : Option ℚ
  consistency_rating : Option ℤ
  promoter_holding : Option ℚ
  fii_holding : Option ℚ
  dii_holding : Option ℚ
  promoter_delta : Option ℚ
  fii_delta : Option ℚ
  dii_delta : Option ℚ
  capex_rating : Option ℤ
  technical_signal : Option String
deriving DecidableEq, Repr

/-- `data[key]` on the modelled dict: a present field yields its value, a
missing field raises `KeyError(key)`. -/
def getField {α : Type} (v : Option α) (key : String) : Except EvalErr α :=
  match v with
  | some x => .ok x
  | none => .error (.keyError key)

namespace StockRanker

/-- `_score_pe_ratio` (identical in both variants): PE relative to industry,
lower is better; 0 for non-positive inputs; 100 at ratio ≤ 0.7, 0 at
ratio ≥ 2.0, linear in between. -/
def score_pe_ratio (stock_pe : ℚ) (industry_pe : ℚ) : ℚ :=
  if stock_pe ≤ 0 ∨ industry_pe ≤ 0 then 0
  else
    let ratio := stock_pe / industry_pe
    if ratio ≤ 0.7 then 100
    else if ratio ≥ 2.0 then 0
    else 100 * (2.0 - ratio) / (2.0 - 0.7)

/-- `_score_peg_ratio` (identical in both variants): 0 for non-positive PEG;
100 at ≤ 0.8, 0 at ≥ 2.0, linear in between. -/
def score_peg_ratio (peg : ℚ) : ℚ :=
  if peg ≤ 0 then 0
  else if peg ≤ 0.8 then 100
  else if peg ≥ 2.0 then 0
  else 100 * (2.0 - peg) / (2.0 - 0.8)

/-- `_score_rsi` (identical in both variants): lower (oversold) is better;
100 at ≤ 30, 0 at ≥ 70, linear in between. -/
def score_rsi (rsi : ℚ) : ℚ :=
  if rsi ≤ 30.0 then 100
  else if rsi ≥ 70.0 then 0
  else 100 * (70.0 - rsi) / (70.0 - 30.0)

/-- `_score_debt_to_equity` (identical in both variants): lower is better;
100 at ≤ 0.1, 0 at ≥ 2.0, linear in between. -/
def score_debt_to_equity (de : ℚ) : ℚ :=
  if de ≤ 0.1 then 100
  else if de ≥ 2.0 then 0
  else 100 * (2.0 - de) / (2.0 - 0.1)

/-- `_score_profit_growth` (identical in both variants): higher is better;
100 at ≥ 25, 0 at ≤ 0, linear in between. -/
def score_profit_growth (g : ℚ) : ℚ :=
  if g ≥ 25.0 then 100
  else if g ≤ 0.0 then 0
  else 100 * g / 25.0

/-- `_score_human_rating_1_to_5` (strict variant, `portfolioAlloter.py`):
validates the rating is in [1,5] (raising `ValueError` otherwise), then
maps it to `(rating - 1) * 25`. -/
def score_human_rating_1_to_5 (rating : ℤ) : Except EvalErr ℚ :=
  if ¬(1 ≤ rating ∧ rating ≤ 5) then
    .error (.valueError ("Rating must be between 1 and 5. Got: " ++ toString rating))
  else
    .ok (((rating : ℚ) - 1) * 25.0)

/-- `_score_human_rating` (soft variant, `streamlit_app_pa.py`): maps the
rating to `(rating - 1) * 25` with no validation at all. -/
def score_human_rating (rating : ℤ) : ℚ :=
  ((rating : ℚ) - 1) * 25.0

/-- `_score_holdings` (identical in both variants): total strong-hands
holding; 100 at ≥ 80, 0 at ≤ 40, linear in between. -/
def score_holdings (promoter fii dii : ℚ) : ℚ :=
  let total := promoter + fii + dii
  if total ≥ 80.0 then 100
  else if total ≤ 40.0 then 0
  else 100 * (total - 40.0) / (80.0 - 40.0)

/-- `_score_holding_delta` (identical in both variants): weighted delta
`2*promoter + 1.5*fii + 1*dii`; 100 at ≥ 3, 0 at ≤ -3, linear in between. -/
def score_holding_delta (promoter_delta fii_delta dii_delta : ℚ) : ℚ :=
  let weighted := promoter_delta * 2.0 + fii_delta * 1.5 + dii_delta * 1.0
  if weighted ≥ 3.0 then 100
  else if weighted ≤ -3.0 then 0
  else 100 * (weighted + 3.0) / 6.0

end StockRanker

/-- Sum of the values of a weight dict (`sum(self.weights.values())`). -/
def sumValues (w : List (String × ℚ)) : ℚ :=
  (w.map Prod.snd).sum

/-- The weighted-aggregation loop shared by both variants
(`for key in self.weights: total += scores[key] * self.weights[key]`):
walks the weight dict in order, looking every weight key up in the scores
dict; an absent key raises an uncaught `KeyError`. -/
def aggregate (scores : List (String × ℚ)) : List (String × ℚ) → ℚ → Except EvalErr ℚ
  | [], total => .ok total
  | (k, w) :: rest, total =>
    match scores.lookup k with
    | some s => aggregate scores rest (total + s * w)
    | none => .error (.keyError k)

namespace PortfolioAlloter

/-- `_validate_weights` of the strict variant: `math.isclose(total, 1.0)`
with Python's default tolerances `rel_tol=1e-9`, `abs_tol=0.0`; raises
`ValueError` when the sum is not close to 1. -/
def validate_weights (weights : List (String × ℚ)) : Except EvalErr Unit :=
  if isclose (sumValues weights) 1.0 (1/1000000000) 0 then .ok ()
  else .error (.valueError "Weights must sum to 1.0")

/-- `_score_technicals` of the strict variant: fixed categorical lookup,
raising `ValueError` for a signal outside the map. -/
def score_technicals (signal : String) : Except EvalErr ℚ :=
  let signal_map : List (String × ℚ) :=
    [("near support", 100.0), ("nothing", 50.0), ("near resistance", 0.0)]
  match signal_map.lookup signal with
  | some v => .ok v
  | none => .error (.valueError
      "Invalid signal. Must be one of: [\x27near support\x27, \x27nothing\x27, \x27near resistance\x27]")

/-- The `try:` block of the strict `calculate_metric`: computes the ten
per-factor scores in source order, propagating the first `KeyError` (missing
field) or `ValueError` (bad rating or signal). -/
def computeScores (data : StockData) : Except EvalErr (List (String × ℚ)) :=
  Except.bind (getField data.stock_pe "stock_pe") fun spe =>
  Except.bind (getField data.industry_pe "industry_pe") fun ipe =>
  Except.bind (getField data.peg_ratio "peg_ratio") fun pegv =>
  Except.bind (getField data.rsi "rsi") fun rsiv =>
  Except.bind (getField data.de_ratio "de_ratio") fun dev =>
  Except.bind (getField data.profit_growth_3y_cagr "profit_growth_3y_cagr") fun growthv =>
  Except.bind (getField data.consistency_rating "consistency_rating") fun consr =>
  Except.bind (StockRanker.score_human_rating_1_to_5 consr) fun consistency =>
  Except.bind (getField data.promoter_holding "promoter_holding") fun ph =>
  Except.bind (getField data.fii_holding "fii_holding") fun fh =>
  Except.bind (getField data.dii_holding "dii_holding") fun dh =>
  Except.bind (getField data.promoter_delta "promoter_delta") fun pd =>
  Except.bind (getField data.fii_delta "fii_delta") fun fd =>
  Except.bind (getField data.dii_delta "dii_delta") fun dd =>
  Except.bind (getField data.capex_rating "capex_rating") fun capr =>
  Except.bind (StockRanker.score_human_rating_1_to_5 capr) fun capex =>
  Except.bind (getField data.technical_signal "technical_signal") fun sig =>
  Except.bind (score_technicals sig) fun technicals =>
  .ok [("pe", StockRanker.score_pe_ratio spe ipe),
       ("peg", StockRanker.score_peg_ratio pegv),
       ("rsi", StockRanker.score_rsi rsiv),
       ("de", StockRanker.score_debt_to_equity dev),
       ("profit_growth", StockRanker.score_profit_growth growthv),
       ("consistency", consistency),
       ("holdings", StockRanker.score_holdings ph fh dh),
       ("delta", StockRanker.score_holding_delta pd fd dd),
       ("capex", capex),
       ("technicals", technicals)]

/-- The report dict returned by the strict `calculate_metric`. -/
structure StrictResult where
  final_allocation_metric : ℚ
  total_weighted_score : ℚ
  individual_scores : List (String × ℚ)
deriving DecidableEq, Repr

/-- `calculate_metric` of the strict variant.  A `KeyError`/`ValueError`
inside the try block is caught, printed, and turned into `None`
(modelled `.ok none`); an uncaught `KeyError` from the aggregation loop
escapes (modelled `.error`).  On success the final metric is
`5 + (total/100) * (10 - 5)` and every reported number is rounded to two
decimals. -/
def calculate_metric (weights : List (String × ℚ)) (data : StockData) :
    Except EvalErr (Option StrictResult) :=
  match computeScores data with
  | .error _ => .ok none
  | .ok scores =>
    match aggregate scores weights 0 with
    | .error e => .error e
    | .ok total_score =>
      let min_alloc : ℚ := 5.0
      let max_alloc : ℚ := 10.0
      let final_metric := min_alloc + (total_score / 100.0) * (max_alloc - min_alloc)
      .ok (some
        { final_allocation_metric := round2 final_metric
          total_weighted_score := round2 total_score
          individual_scores := scores.map (fun p => (p.1, round2 p.2)) })

end PortfolioAlloter

namespace StreamlitApp

/-- `_validate_weights` of the soft variant: `math.isclose(total, 1.0,
rel_tol=1e-5)` (`abs_tol` left at its default 0.0); on failure the app shows
an error and stops, modelled as `.error`. -/
def validate_weights (weights : List (String × ℚ)) : Except EvalErr Unit :=
  if isclose (sumValues weights) 1.0 (1/100000) 0 then .ok ()
  else .error (.valueError "Configuration Error: Weights must sum to 1.0")

/-- `_score_technicals` of the soft variant: `mapping.get(signal, 50.0)` —
an unknown signal silently defaults to the neutral score 50. -/
def score_technicals (signal : String) : ℚ :=
  let mapping : List (String × ℚ) :=
    [("near support", 100.0), ("nothing", 50.0), ("near resistance", 0.0)]
  (mapping.lookup signal).getD 50.0

/-- The score-building part of the soft `calculate_metric`: same field
accesses in the same order, but the rating mapper does not validate and the
technicals scorer defaults, so only `KeyError` can arise, and it is not
caught anywhere in the class. -/
def computeScores (data : StockData) : Except EvalErr (List (String × ℚ)) :=
  Except.bind (getField data.stock_pe "stock_pe") fun spe =>
  Except.bind (getField data.industry_pe "industry_pe") fun ipe =>
  Except.bind (getField data.peg_ratio "peg_ratio") fun pegv =>
  Except.bind (getField data.rsi "rsi") fun rsiv =>
  Except.bind (getField data.de_ratio "de_ratio") fun dev =>
  Except.bind (getField data.profit_growth_3y_cagr "profit_growth_3y_cagr") fun growthv =>
  Except.bind (getField data.consistency_rating "consistency_rating") fun consr =>
  Except.bind (getField data.promoter_holding "promoter_holding") fun ph =>
  Except.bind (getField data.fii_holding "fii_holding") fun fh =>
  Except.bind (getField data.dii_holding "dii_holding") fun dh =>
  Except.bind (getField data.promoter_delta "promoter_delta") fun pd =>
  Except.bind (getField data.fii_delta "fii_delta") fun fd =>
  Except.bind (getField data.dii_delta "dii_delta") fun dd =>
  Except.bind (getField data.capex_rating "capex_rating") fun capr =>
  Except.bind (getField data.technical_signal "technical_signal") fun sig =>
  .ok [("pe", StockRanker.score_pe_ratio spe ipe),
       ("peg", StockRanker.score_peg_ratio pegv),
       ("rsi", StockRanker.score_rsi rsiv),
       ("de", StockRanker.score_debt_to_equity dev),
       ("profit_growth", StockRanker.score_profit_growth growthv),
       ("consistency", StockRanker.score_human_rating consr),
       ("holdings", StockRanker.score_holdings ph fh dh),
       ("delta", StockRanker.score_holding_delta pd fd dd),
       ("capex", StockRanker.score_human_rating capr),
       ("technicals", score_technicals sig)]

/-- The result dict returned by the soft `calculate_metric`. -/
structure SoftResult where
  final_allocation : ℚ
  raw_score : ℚ
  breakdown : List (String × ℚ)
deriving DecidableEq, Repr

/-- `calculate_metric` of the soft variant: no try/except; the final metric
and raw score are rounded to two decimals but the breakdown dict is returned
unrounded. -/
def calculate_metric (weights : List (String × ℚ)) (data : StockData) :
    Except EvalErr SoftResult :=
  match computeScores data with
  | .error e => .error e
  | .ok scores =>
    match aggregate scores weights 0 with
    | .error e => .error e
    | .ok total_score =>
      let min_alloc : ℚ := 5.0
      let max_alloc : ℚ := 10.0
      let final_metric := min_alloc + (total_score / 100.0) * (max_alloc - min_alloc)
      .ok { final_allocation := round2 final_metric
            raw_score := round2 total_score
            breakdown := scores }

end StreamlitApp

/-- `my_weights`, the reference weight set of `portfolioAlloter.py`
(in its source order). -/
def my_weights : List (String × ℚ) :=
  [("pe", 0.10), ("peg", 0.10), ("de", 0.10), ("profit_growth", 0.10),
   ("consistency", 0.10), ("holdings", 0.05), ("delta", 0.10), ("capex", 0.10),
   ("rsi", 0.10), ("technicals", 0.15)]

/-- `stock_A_data` ("GoodValueBuy") from `portfolioAlloter.py`. -/
def stock_A_data : StockData where
  stock_pe := some 15.0
  industry_pe := some 25.0
  peg_ratio := some 0.8
  rsi := some 28.0
  de_ratio := some 0.3
  profit_growth_3y_cagr := some 18.0
  consistency_rating := some 4
  promoter_holding := some 55.0
  fii_holding := some 10.0
  dii_holding := some 5.0
  promoter_delta := some 0.5
  fii_delta := some 1.0
  dii_delta := some 0.0
  capex_rating := some 4
  technical_signal := some "near support"

/-- `stock_B_data` ("HypedGrowthStock") from `portfolioAlloter.py`. -/
def stock_B_data : StockData where
  stock_pe := some 60.0
  industry_pe := some 30.0
  peg_ratio := some 2.1
  rsi := some 75.0
  de_ratio := some 1.2
  profit_growth_3y_cagr := some 30.0
  consistency_rating := some 3
  promoter_holding := some 25.0
  fii_holding := some 20.0
  dii_holding := some 10.0
  promoter_delta := some (-1.0)
  fii_delta := some 0.0
  dii_delta := some (-0.5)
  capex_rating := some 5
  technical_signal := some "near resistance"

/-- The ten factor names, in the insertion order of the scores dict. -/
def factorNames : List String :=
  ["pe", "peg", "rsi", "de", "profit_growth", "consistency", "holdings",
   "delta", "capex", "technicals"]

/-- `round2` evaluates to `f/100` when the fractional part of `q * 100`
above `f` is below one half. -/
theorem round2_eq_down (q : ℚ) (f : ℤ) (h1 : (f : ℚ) ≤ q * 100)
    (h2 : q * 100 - (f : ℚ) < 1/2) : round2 q = (f : ℚ) / 100 := by
  have hf : ⌊q * 100⌋ = f := by
    rw [Int.floor_eq_iff]
    exact ⟨h1, by linarith⟩
  simp only [round2, roundHalfEven, hf]
  rw [if_pos h2]

/-- `round2` evaluates to `(f+1)/100` when the fractional part of `q * 100`
above `f` is above one half (but below one). -/
theorem round2_eq_up (q : ℚ) (f : ℤ) (h1 : (f : ℚ) ≤ q * 100)
    (h2 : 1/2 < q * 100 - (f : ℚ)) (h3 : q * 100 - (f : ℚ) < 1) :
    round2 q = ((f : ℚ) + 1) / 100 := by
  have hf : ⌊q * 100⌋ = f := by
    rw [Int.floor_eq_iff]
    exact ⟨h1, by linarith⟩
  simp only [round2, roundHalfEven, hf]
  rw [if_neg (by linarith), if_pos h2]
  push_cast
  ring

/-- Variant of `round2_eq_down` with the result as a parameter, so it can be
applied by unification against a goal. -/
theorem round2_eq_down_r (q r : ℚ) (f : ℤ) (h1 : (f : ℚ) ≤ q * 100)
    (h2 : q * 100 - (f : ℚ) < 1/2) (h3 : (f : ℚ) / 100 = r) : round2 q = r :=
  h3 ▸ round2_eq_down q f h1 h2

/-- Variant of `round2_eq_up` with the result as a parameter, so it can be
applied by unification against a goal. -/
theorem round2_eq_up_r (q r : ℚ) (f : ℤ) (h1 : (f : ℚ) ≤ q * 100)
    (h2 : 1/2 < q * 100 - (f : ℚ)) (h3 : q * 100 - (f : ℚ) < 1)
    (h4 : ((f : ℚ) + 1) / 100 = r) : round2 q = r :=
  h4 ▸ round2_eq_up q f h1 h2 h3

/-- The unrounded per-factor scores of the GoodValueBuy record under the
strict variant. -/
theorem computeScores_A : PortfolioAlloter.computeScores stock_A_data =
    .ok [("pe", 100), ("peg", 100), ("rsi", 100), ("de", 1700/19),
         ("profit_growth", 72), ("consistency", 75), ("holdings", 75),
         ("delta", 275/3), ("capex", 75), ("technicals", 100)] := by
  norm_num [PortfolioAlloter.computeScores, PortfolioAlloter.score_technicals,
    getField, stock_A_data, Except.bind, List.lookup,
    StockRanker.score_pe_ratio, StockRanker.score_peg_ratio,
    StockRanker.score_rsi, StockRanker.score_debt_to_equity,
    StockRanker.score_profit_growth, StockRanker.score_human_rating_1_to_5,
    StockRanker.score_holdings, StockRanker.score_holding_delta]

/-- The unrounded per-factor scores of the HypedGrowthStock record under the
strict variant. -/
theorem computeScores_B : PortfolioAlloter.computeScores stock_B_data =
    .ok [("pe", 0), ("peg", 0), ("rsi", 0), ("de", 800/19),
         ("profit_growth", 100), ("consistency", 50), ("holdings", 75/2),
         ("delta", 25/3), ("capex", 100), ("technicals", 0)] := by
  simp only [PortfolioAlloter.computeScores, getField, stock_B_data, Except.bind]
  simp [PortfolioAlloter.score_technicals, List.lookup]
  norm_num [StockRanker.score_pe_ratio, StockRanker.score_peg_ratio,
    StockRanker.score_rsi, StockRanker.score_debt_to_equity,
    StockRanker.score_profit_growth, StockRanker.score_human_rating_1_to_5,
    StockRanker.score_holdings, StockRanker.score_holding_delta]

/-- Aggregating the GoodValueBuy scores with the reference weights. -/
theorem aggregate_A :
    aggregate [("pe", 100), ("peg", 100), ("rsi", 100), ("de", 1700/19),
         ("profit_growth", 72), ("consistency", 75), ("holdings", 75),
         ("delta", 275/3), ("capex", 75), ("technicals", 100)] my_weights 0 =
      .ok (101533/1140) := by
  simp [aggregate, my_weights, List.lookup]
  norm_num

/-- Aggregating the HypedGrowthStock scores with the reference weights. -/
theorem aggregate_B :
    aggregate [("pe", 0), ("peg", 0), ("rsi", 0), ("de", 800/19),
         ("profit_growth", 100), ("consistency", 50), ("holdings", 75/2),
         ("delta", 25/3), ("capex", 100), ("technicals", 0)] my_weights 0 =
      .ok (14555/456) := by
  simp [aggregate, my_weights, List.lookup]
  norm_num

/-- Full strict evaluation of the GoodValueBuy record. -/
theorem metric_A : PortfolioAlloter.calculate_metric my_weights stock_A_data =
    .ok (some { final_allocation_metric := 9.45
                total_weighted_score := 89.06
                individual_scores :=
                  [("pe", 100), ("peg", 100), ("rsi", 100), ("de", 89.47),
                   ("profit_growth", 72), ("consistency", 75), ("holdings", 75),
                   ("delta", 91.67), ("capex", 75), ("technicals", 100)] }) := by
  have hfin : round2 (215533/22800) = (9.45 : ℚ) :=
    round2_eq_down_r _ _ 945 (by norm_num) (by norm_num) (by norm_num)
  have hraw : round2 (101533/1140) = (89.06 : ℚ) :=
    round2_eq_down_r _ _ 8906 (by norm_num) (by norm_num) (by norm_num)
  have hde : round2 (1700/19) = (89.47 : ℚ) :=
    round2_eq_down_r _ _ 8947 (by norm_num) (by norm_num) (by norm_num)
  have hdelta : round2 (275/3) = (91.67 : ℚ) :=
    round2_eq_up_r _ _ 9166 (by norm_num) (by norm_num) (by norm_num) (by norm_num)
  have h100 : round2 (100 : ℚ) = 100 :=
    round2_eq_down_r _ _ 10000 (by norm_num) (by norm_num) (by norm_num)
  have h75 : round2 (75 : ℚ) = 75 :=
    round2_eq_down_r _ _ 7500 (by norm_num) (by norm_num) (by norm_num)
  have h72 : round2 (72 : ℚ) = 72 :=
    round2_eq_down_r _ _ 7200 (by norm_num) (by norm_num) (by norm_num)
  rw [PortfolioAlloter.calculate_metric, computeScores_A]
  simp only []
  rw [aggregate_A]
  norm_num [hfin, hraw, hde, hdelta, h100, h75, h72]

/-- Full strict evaluation of the HypedGrowthStock record. -/
theorem metric_B : PortfolioAlloter.calculate_metric my_weights stock_B_data =
    .ok (some { final_allocation_metric := 6.6
                total_weighted_score := 31.92
                individual_scores :=
                  [("pe", 0), ("peg", 0), ("rsi", 0), ("de", 42.11),
                   ("profit_growth", 100), ("consistency", 50), ("holdings", 37.5),
                   ("delta", 8.33), ("capex", 100), ("technicals", 0)] }) := by
  have hfin : round2 (12031/1824) = (6.6 : ℚ) :=
    round2_eq_up_r _ _ 659 (by norm_num) (by norm_num) (by norm_num) (by norm_num)
  have hraw : round2 (14555/456) = (31.92 : ℚ) :=
    round2_eq_up_r _ _ 3191 (by norm_num) (by norm_num) (by norm_num) (by norm_num)
  have hde : round2 (800/19) = (42.11 : ℚ) :=
    round2_eq_up_r _ _ 4210 (by norm_num) (by norm_num) (by norm_num) (by norm_num)
  have hdelta : round2 (25/3) = (8.33 : ℚ) :=
    round2_eq_down_r _ _ 833 (by norm_num) (by norm_num) (by norm_num)
  have h0 : round2 (0 : ℚ) = 0 :=
    round2_eq_down_r _ _ 0 (by norm_num) (by norm_num) (by norm_num)
  have h100 : round2 (100 : ℚ) = 100 :=
    round2_eq_down_r _ _ 10000 (by norm_num) (by norm_num) (by norm_num)
  have h50 : round2 (50 : ℚ) = 50 :=
    round2_eq_down_r _ _ 5000 (by norm_num) (by norm_num) (by norm_num)
  have h375 : round2 (75/2 : ℚ) = 37.5 :=
    round2_eq_down_r _ _ 3750 (by norm_num) (by norm_num) (by norm_num)
  rw [PortfolioAlloter.calculate_metric, computeScores_B]
  simp only []
  rw [aggregate_B]
  norm_num [hfin, hraw, hde, hdelta, h0, h100, h50, h375]

/-- C3: with the reference weight set, the GoodValueBuy record evaluates to a
final allocation strictly greater than 8.5 with a technicals sub-score of
exactly 100.0, and the HypedGrowthStock record evaluates to a final
allocation strictly lower than GoodValueBuy's with a pe sub-score of
exactly 0.0. -/
theorem c3_end_to_end_scenarios :
    ∃ rA rB : PortfolioAlloter.StrictResult,
      PortfolioAlloter.calculate_metric my_weights stock_A_data = .ok (some rA) ∧
      PortfolioAlloter.calculate_metric my_weights stock_B_data = .ok (some rB) ∧
      rA.final_allocation_metric > 8.5 ∧
      rA.individual_scores.lookup "technicals" = some 100 ∧
      rB.final_allocation_metric < rA.final_allocation_metric ∧
      rB.individual_scores.lookup "pe" = some 0 := by
  refine ⟨_, _, metric_A, metric_B, ?_, ?_, ?_, ?_⟩
  · norm_num
  · simp [List.lookup]
  · norm_num
  · simp [List.lookup]

/-- C6: the technicals scorer maps "near support" to 100, "nothing" to 50 and
"near resistance" to 0; for any other string the strict variant raises a
`ValueError` while the soft variant returns the neutral score 50. -/
theorem c6_technicals_policy :
    PortfolioAlloter.score_technicals "near support" = .ok 100 ∧
    PortfolioAlloter.score_technicals "nothing" = .ok 50 ∧
    PortfolioAlloter.score_technicals "near resistance" = .ok 0 ∧
    StreamlitApp.score_technicals "near support" = 100 ∧
    StreamlitApp.score_technicals "nothing" = 50 ∧
    StreamlitApp.score_technicals "near resistance" = 0 ∧
    (∀ s : String, s ≠ "near support" → s ≠ "nothing" → s ≠ "near resistance" →
      PortfolioAlloter.score_technicals s = .error (.valueError
        "Invalid signal. Must be one of: [\x27near support\x27, \x27nothing\x27, \x27near resistance\x27]") ∧
      StreamlitApp.score_technicals s = 50) := by
  refine ⟨by norm_num [PortfolioAlloter.score_technicals, List.lookup],
    by simp [PortfolioAlloter.score_technicals, List.lookup] <;> norm_num,
    by simp [PortfolioAlloter.score_technicals, List.lookup] <;> norm_num,
    by norm_num [StreamlitApp.score_technicals, List.lookup],
    by simp [StreamlitApp.score_technicals, List.lookup] <;> norm_num,
    by simp [StreamlitApp.score_technicals, List.lookup] <;> norm_num,
    fun s h1 h2 h3 => ?_⟩
  have b1 : (s == "near support") = false := beq_eq_false_iff_ne.mpr h1
  have b2 : (s == "nothing") = false := beq_eq_false_iff_ne.mpr h2
  have b3 : (s == "near resistance") = false := beq_eq_false_iff_ne.mpr h3
  constructor
  · simp [PortfolioAlloter.score_technicals, List.lookup, b1, b2, b3]
  · simp [StreamlitApp.score_technicals, List.lookup, b1, b2, b3] <;> norm_num

/-- Witness for C6 at the concrete unknown signal "sideways". -/
theorem c6_witness :
    PortfolioAlloter.score_technicals "sideways" = .error (.valueError
      "Invalid signal. Must be one of: [\x27near support\x27, \x27nothing\x27, \x27near resistance\x27]") ∧
    StreamlitApp.score_technicals "sideways" = 50 :=
  c6_technicals_policy.2.2.2.2.2.2 "sideways" (by decide) (by decide) (by decide)

/-- C7: the ordinal rating mapper returns exactly (rating-1)*25 on {1,...,5}
and, in the strict variant, raises a `ValueError` for any integer rating
outside [1,5]. -/
theorem c7_rating_mapper :
    StockRanker.score_human_rating_1_to_5 1 = .ok 0 ∧
    StockRanker.score_human_rating_1_to_5 2 = .ok 25 ∧
    StockRanker.score_human_rating_1_to_5 3 = .ok 50 ∧
    StockRanker.score_human_rating_1_to_5 4 = .ok 75 ∧
    StockRanker.score_human_rating_1_to_5 5 = .ok 100 ∧
    (∀ r : ℤ, 1 ≤ r → r ≤ 5 →
      StockRanker.score_human_rating_1_to_5 r = .ok (((r : ℚ) - 1) * 25)) ∧
    (∀ r : ℤ, ¬(1 ≤ r ∧ r ≤ 5) →
      StockRanker.score_human_rating_1_to_5 r =
        .error (.valueError ("Rating must be between 1 and 5. Got: " ++ toString r))) := by
  refine ⟨by norm_num [StockRanker.score_human_rating_1_to_5],
    by norm_num [StockRanker.score_human_rating_1_to_5],
    by norm_num [StockRanker.score_human_rating_1_to_5],
    by norm_num [StockRanker.score_human_rating_1_to_5],
    by norm_num [StockRanker.score_human_rating_1_to_5],
    fun r h1 h2 => ?_, fun r h => ?_⟩
  · rw [StockRanker.score_human_rating_1_to_5, if_neg (not_not_intro ⟨h1, h2⟩)]
    norm_num
  · rw [StockRanker.score_human_rating_1_to_5, if_pos h]

/-- Witness for C7 at the concrete in-range rating 4 and out-of-range
rating 7. -/
theorem c7_witness :
    StockRanker.score_human_rating_1_to_5 4 = .ok ((((4 : ℤ) : ℚ) - 1) * 25) ∧
    StockRanker.score_human_rating_1_to_5 7 =
      .error (.valueError ("Rating must be between 1 and 5. Got: " ++ toString (7 : ℤ))) :=
  ⟨c7_rating_mapper.2.2.2.2.2.1 4 (by decide) (by decide),
   c7_rating_mapper.2.2.2.2.2.2 7 (by decide)⟩

/-- C8: the holding-delta scorer clamps the weighted delta
2*promoter + 1.5*fii + 1*dii at ±3 and interpolates linearly in between;
at (0,0,0) it returns exactly 50. -/
theorem c8_holding_delta :
    (∀ p f d : ℚ,
      (p * 2.0 + f * 1.5 + d * 1.0 ≥ 3.0 →
        StockRanker.score_holding_delta p f d = 100) ∧
      (p * 2.0 + f * 1.5 + d * 1.0 ≤ -3.0 →
        StockRanker.score_holding_delta p f d = 0) ∧
      (-3.0 < p * 2.0 + f * 1.5 + d * 1.0 → p * 2.0 + f * 1.5 + d * 1.0 < 3.0 →
        StockRanker.score_holding_delta p f d =
          100 * (p * 2.0 + f * 1.5 + d * 1.0 + 3.0) / 6.0)) ∧
    StockRanker.score_holding_delta 0 0 0 = 50 := by
  refine ⟨fun p f d => ⟨fun h => ?_, fun h => ?_, fun h1 h2 => ?_⟩, ?_⟩
  · simp only [StockRanker.score_holding_delta]
    rw [if_pos h]
  · simp only [StockRanker.score_holding_delta]
    rw [if_neg (by norm_num at h ⊢; linarith), if_pos h]
  · simp only [StockRanker.score_holding_delta]
    rw [if_neg (by norm_num at h2 ⊢; linarith), if_neg (by norm_num at h1 ⊢; linarith)]
  · norm_num [StockRanker.score_holding_delta]

/-- Witness for C8 on the three branches: weighted delta 4 (clamped to 100),
-4 (clamped to 0) and 2.5 (interpolated). -/
theorem c8_witness :
    StockRanker.score_holding_delta 2 0 0 = 100 ∧
    StockRanker.score_holding_delta (-2) 0 0 = 0 ∧
    StockRanker.score_holding_delta 0.5 1 0 =
      100 * ((0.5 : ℚ) * 2.0 + 1 * 1.5 + 0 * 1.0 + 3.0) / 6.0 :=
  ⟨(c8_holding_delta.1 2 0 0).1 (by norm_num),
   (c8_holding_delta.1 (-2) 0 0).2.1 (by norm_num),
   (c8_holding_delta.1 0.5 1 0).2.2 (by norm_num) (by norm_num)⟩

/-- The strict validator rejects any weight list whose sum deviates from 1
by more than the default `math.isclose` relative tolerance 1e-9. -/
theorem validate_strict_error (w : List (String × ℚ))
    (h : 1/1000000000 * max |sumValues w| 1 < |sumValues w - 1|) :
    PortfolioAlloter.validate_weights w =
      .error (.valueError "Weights must sum to 1.0") := by
  have hcond : ¬ (isclose (sumValues w) 1.0 (1/1000000000) 0 = true) := by
    simp only [isclose, decide_eq_true_eq, not_le]
    rw [show (1.0 : ℚ) = 1 by norm_num, abs_one]
    exact max_lt h (lt_of_le_of_lt (by positivity) h)
  rw [PortfolioAlloter.validate_weights, if_neg hcond]

/-- The strict validator accepts any weight list whose sum is within the
default `math.isclose` relative tolerance 1e-9 of 1. -/
theorem validate_strict_ok (w : List (String × ℚ))
    (h : |sumValues w - 1| ≤ 1/1000000000 * max |sumValues w| 1) :
    PortfolioAlloter.validate_weights w = .ok () := by
  have hcond : isclose (sumValues w) 1.0 (1/1000000000) 0 = true := by
    simp only [isclose, decide_eq_true_eq]
    rw [show (1.0 : ℚ) = 1 by norm_num, abs_one]
    exact le_max_of_le_left h
  rw [PortfolioAlloter.validate_weights, if_pos hcond]

/-- The interactive validator rejects any weight list whose sum deviates
from 1 by more than the relative tolerance 1e-5. -/
theorem validate_soft_error (w : List (String × ℚ))
    (h : 1/100000 * max |sumValues w| 1 < |sumValues w - 1|) :
    StreamlitApp.validate_weights w =
      .error (.valueError "Configuration Error: Weights must sum to 1.0") := by
  have hcond : ¬ (isclose (sumValues w) 1.0 (1/100000) 0 = true) := by
    simp only [isclose, decide_eq_true_eq, not_le]
    rw [show (1.0 : ℚ) = 1 by norm_num, abs_one]
    exact max_lt h (lt_of_le_of_lt (by positivity) h)
  rw [StreamlitApp.validate_weights, if_neg hcond]

/-- The interactive validator accepts any weight list whose sum is within
relative tolerance 1e-5 of 1. -/
theorem validate_soft_ok (w : List (String × ℚ))
    (h : |sumValues w - 1| ≤ 1/100000 * max |sumValues w| 1) :
    StreamlitApp.validate_weights w = .ok () := by
  have hcond : isclose (sumValues w) 1.0 (1/100000) 0 = true := by
    simp only [isclose, decide_eq_true_eq]
    rw [show (1.0 : ℚ) = 1 by norm_num, abs_one]
    exact le_max_of_le_left h
  rw [StreamlitApp.validate_weights, if_pos hcond]

/-- C4 (amended): sums 0.97 and 1.03 fail both validators; a sum of exactly
1.0 (the reference weights) passes both; a sum of 0.999999 passes the
interactive validator (rel_tol 1e-5) but fails the strict validator, whose
tolerance is `math.isclose`'s default rel_tol 1e-9; in general a sum
deviating from 1 by more than rel_tol * max(|sum|, 1) fails the respective
validator. -/
theorem c4_weight_sum_validation :
    (∀ w : List (String × ℚ), 1/1000000000 * max |sumValues w| 1 < |sumValues w - 1| →
      PortfolioAlloter.validate_weights w =
        .error (.valueError "Weights must sum to 1.0")) ∧
    (∀ w : List (String × ℚ), 1/100000 * max |sumValues w| 1 < |sumValues w - 1| →
      StreamlitApp.validate_weights w =
        .error (.valueError "Configuration Error: Weights must sum to 1.0")) ∧
    PortfolioAlloter.validate_weights [("pe", 0.97)] =
      .error (.valueError "Weights must sum to 1.0") ∧
    PortfolioAlloter.validate_weights [("pe", 1.03)] =
      .error (.valueError "Weights must sum to 1.0") ∧
    StreamlitApp.validate_weights [("pe", 0.97)] =
      .error (.valueError "Configuration Error: Weights must sum to 1.0") ∧
    StreamlitApp.validate_weights [("pe", 1.03)] =
      .error (.valueError "Configuration Error: Weights must sum to 1.0") ∧
    PortfolioAlloter.validate_weights my_weights = .ok () ∧
    StreamlitApp.validate_weights my_weights = .ok () ∧
    StreamlitApp.validate_weights [("pe", 0.999999)] = .ok () ∧
    PortfolioAlloter.validate_weights [("pe", 0.999999)] =
      .error (.valueError "Weights must sum to 1.0") :=
  ⟨validate_strict_error, validate_soft_error,
   validate_strict_error _ (by norm_num [sumValues, abs_of_nonneg, abs_of_nonpos, max_def]),
   validate_strict_error _ (by norm_num [sumValues, abs_of_nonneg, abs_of_nonpos, max_def]),
   validate_soft_error _ (by norm_num [sumValues, abs_of_nonneg, abs_of_nonpos, max_def]),
   validate_soft_error _ (by norm_num [sumValues, abs_of_nonneg, abs_of_nonpos, max_def]),
   validate_strict_ok _ (by norm_num [sumValues, my_weights, abs_of_nonneg, abs_of_nonpos, max_def]),
   validate_soft_ok _ (by norm_num [sumValues, my_weights, abs_of_nonneg, abs_of_nonpos, max_def]),
   validate_soft_ok _ (by norm_num [sumValues, abs_of_nonneg, abs_of_nonpos, max_def]),
   validate_strict_error _ (by norm_num [sumValues, abs_of_nonneg, abs_of_nonpos, max_def])⟩

/-- Witness for C4 applying the general tolerance conjuncts at a concrete
weight list summing to 2. -/
theorem c4_witness :
    PortfolioAlloter.validate_weights [("pe", 2)] =
      .error (.valueError "Weights must sum to 1.0") ∧
    StreamlitApp.validate_weights [("pe", 2)] =
      .error (.valueError "Configuration Error: Weights must sum to 1.0") :=
  ⟨c4_weight_sum_validation.1 [("pe", 2)]
     (by norm_num [sumValues, abs_of_nonneg, abs_of_nonpos, max_def]),
   c4_weight_sum_validation.2.1 [("pe", 2)]
     (by norm_num [sumValues, abs_of_nonneg, abs_of_nonpos, max_def])⟩

/-- C4 counterexample: the claim says a sum of 0.999999 succeeds, but
constructing the strict batch engine with weights summing to 0.999999
raises a configuration error (`math.isclose` default rel_tol is 1e-9). -/
theorem c4_counterexample :
    PortfolioAlloter.validate_weights [("pe", 0.999999)] =
      .error (.valueError "Weights must sum to 1.0") :=
  validate_strict_error _
    (by norm_num [sumValues, abs_of_nonneg, abs_of_nonpos, max_def])

/-- GoodValueBuy record with the `rsi` field removed. -/
def stock_A_missing_rsi : StockData := { stock_A_data with rsi := none }

/-- GoodValueBuy record with an out-of-range consistency rating of 7. -/
def stock_A_rating7 : StockData := { stock_A_data with consistency_rating := some 7 }

/-- GoodValueBuy record with an invalid technical signal. -/
def stock_A_bad_signal : StockData :=
  { stock_A_data with technical_signal := some "overbought" }

/-- A key present among an association list's keys has a successful lookup. -/
theorem lookup_isSome_of_mem (l : List (String × ℚ)) (k : String)
    (h : k ∈ l.map Prod.fst) : (l.lookup k).isSome = true := by
  induction l with
  | nil => simp at h
  | cons kv rest ih =>
    obtain ⟨k', v⟩ := kv
    by_cases hk : k = k'
    · subst hk; simp [List.lookup]
    · have hmem : k ∈ rest.map Prod.fst := by
        simp only [List.map_cons, List.mem_cons] at h
        exact h.resolve_left hk
      have hb : (k == k') = false := beq_eq_false_iff_ne.mpr hk
      simpa [List.lookup, hb] using ih hmem

/-- The aggregation loop succeeds whenever every weight key has a score. -/
theorem aggregate_ok_of_keys (scores : List (String × ℚ)) :
    ∀ (w : List (String × ℚ)) (t : ℚ),
      (∀ k ∈ w.map Prod.fst, (scores.lookup k).isSome = true) →
      ∃ total : ℚ, aggregate scores w t = .ok total := by
  intro w
  induction w with
  | nil => exact fun t _ => ⟨t, rfl⟩
  | cons kv rest ih =>
    intro t hk
    obtain ⟨k, wv⟩ := kv
    have hks : (scores.lookup k).isSome = true := hk k (by simp)
    obtain ⟨s, hs⟩ := Option.isSome_iff_exists.mp hks
    simp only [aggregate, hs]
    exact ih (t + s * wv) (fun k' hk' => hk k' (by simp [hk']))

/-- A successful aggregation computes the sum, over the weight list, of
score times weight. -/
theorem aggregate_ok_sum (scores : List (String × ℚ)) :
    ∀ (w : List (String × ℚ)) (t total : ℚ),
      aggregate scores w t = .ok total →
      total = t + (w.map (fun kv => ((scores.lookup kv.1).getD 0) * kv.2)).sum := by
  intro w
  induction w with
  | nil =>
    intro t total h
    simp only [aggregate, Except.ok.injEq] at h
    simp [h]
  | cons kv rest ih =>
    intro t total h
    obtain ⟨k, wv⟩ := kv
    simp only [aggregate] at h
    cases hs : scores.lookup k with
    | none => rw [hs] at h; simp at h
    | some s =>
      rw [hs] at h
      have hrec := ih (t + s * wv) total h
      simp only [List.map_cons, List.sum_cons, hs, Option.getD_some]
      rw [hrec]; ring

/-- Shape of a successful strict evaluation: the final metric is
`5 + (total/100) * (10 - 5)` and every reported number is rounded to two
decimal digits. -/
theorem strict_metric_eq (w : List (String × ℚ)) (d : StockData)
    (scores : List (String × ℚ)) (total : ℚ)
    (h1 : PortfolioAlloter.computeScores d = .ok scores)
    (h2 : aggregate scores w 0 = .ok total) :
    PortfolioAlloter.calculate_metric w d =
      .ok (some { final_allocation_metric := round2 (5 + total / 100 * (10 - 5))
                  total_weighted_score := round2 total
                  individual_scores := scores.map (fun p => (p.1, round2 p.2)) }) := by
  rw [PortfolioAlloter.calculate_metric, h1]
  simp only []
  rw [h2]
  norm_num

/-- Shape of a successful soft evaluation: final metric and raw score are
rounded, the breakdown is returned unrounded. -/
theorem soft_metric_eq (w : List (String × ℚ)) (d : StockData)
    (scores : List (String × ℚ)) (total : ℚ)
    (h1 : StreamlitApp.computeScores d = .ok scores)
    (h2 : aggregate scores w 0 = .ok total) :
    StreamlitApp.calculate_metric w d =
      .ok { final_allocation := round2 (5 + total / 100 * (10 - 5))
            raw_score := round2 total
            breakdown := scores } := by
  rw [StreamlitApp.calculate_metric, h1]
  simp only []
  rw [h2]
  norm_num

/-- The unrounded per-factor scores of the GoodValueBuy record under the
soft variant (identical values to the strict variant on this valid record). -/
theorem computeScores_soft_A : StreamlitApp.computeScores stock_A_data =
    .ok [("pe", 100), ("peg", 100), ("rsi", 100), ("de", 1700/19),
         ("profit_growth", 72), ("consistency", 75), ("holdings", 75),
         ("delta", 275/3), ("capex", 75), ("technicals", 100)] := by
  simp only [StreamlitApp.computeScores, getField, stock_A_data, Except.bind]
  simp [StreamlitApp.score_technicals, List.lookup]
  norm_num [StockRanker.score_pe_ratio, StockRanker.score_peg_ratio,
    StockRanker.score_rsi, StockRanker.score_debt_to_equity,
    StockRanker.score_profit_growth, StockRanker.score_human_rating,
    StockRanker.score_holdings, StockRanker.score_holding_delta]

/-- Under the soft variant, the GoodValueBuy record with consistency rating 7
still produces a full score list, with an out-of-range consistency score of
150. -/
theorem computeScores_soft_A7 : StreamlitApp.computeScores stock_A_rating7 =
    .ok [("pe", 100), ("peg", 100), ("rsi", 100), ("de", 1700/19),
         ("profit_growth", 72), ("consistency", 150), ("holdings", 75),
         ("delta", 275/3), ("capex", 75), ("technicals", 100)] := by
  simp only [StreamlitApp.computeScores, getField, stock_A_rating7, stock_A_data,
    Except.bind]
  simp [StreamlitApp.score_technicals, List.lookup]
  norm_num [StockRanker.score_pe_ratio, StockRanker.score_peg_ratio,
    StockRanker.score_rsi, StockRanker.score_debt_to_equity,
    StockRanker.score_profit_growth, StockRanker.score_human_rating,
    StockRanker.score_holdings, StockRanker.score_holding_delta]

/-- C5 (amended): in the strict batch variant a missing field, an
out-of-range rating or an invalid signal makes `calculate_metric` return
`None` (no partial result), the caught exception naming the offending field
or value; in the interactive variant only a missing field fails (as an
uncaught `KeyError` naming the field), while out-of-range ratings and
unknown signals are scored without failing. -/
theorem c5_failure_policy :
    (∀ (w : List (String × ℚ)) (d : StockData) (e : EvalErr),
      PortfolioAlloter.computeScores d = .error e →
      PortfolioAlloter.calculate_metric w d = .ok none) ∧
    PortfolioAlloter.computeScores stock_A_missing_rsi = .error (.keyError "rsi") ∧
    PortfolioAlloter.calculate_metric my_weights stock_A_missing_rsi = .ok none ∧
    PortfolioAlloter.computeScores stock_A_rating7 =
      .error (.valueError ("Rating must be between 1 and 5. Got: " ++ toString (7 : ℤ))) ∧
    PortfolioAlloter.calculate_metric my_weights stock_A_rating7 = .ok none ∧
    PortfolioAlloter.computeScores stock_A_bad_signal =
      .error (.valueError
        "Invalid signal. Must be one of: [\x27near support\x27, \x27nothing\x27, \x27near resistance\x27]") ∧
    PortfolioAlloter.calculate_metric my_weights stock_A_bad_signal = .ok none ∧
    StreamlitApp.calculate_metric my_weights stock_A_missing_rsi =
      .error (.keyError "rsi") := by
  refine ⟨fun w d e h => by rw [PortfolioAlloter.calculate_metric, h],
    ?_, ?_, ?_, ?_, ?_, ?_, ?_⟩
  · simp [PortfolioAlloter.computeScores, getField, stock_A_missing_rsi,
      stock_A_data, Except.bind]
  · simp [PortfolioAlloter.calculate_metric, PortfolioAlloter.computeScores,
      getField, stock_A_missing_rsi, stock_A_data, Except.bind]
  · simp [PortfolioAlloter.computeScores, getField, stock_A_rating7,
      stock_A_data, Except.bind, StockRanker.score_human_rating_1_to_5]
  · simp [PortfolioAlloter.calculate_metric, PortfolioAlloter.computeScores,
      getField, stock_A_rating7, stock_A_data, Except.bind,
      StockRanker.score_human_rating_1_to_5]
  · simp [PortfolioAlloter.computeScores, getField, stock_A_bad_signal,
      stock_A_data, Except.bind, StockRanker.score_human_rating_1_to_5,
      PortfolioAlloter.score_technicals, List.lookup]
  · simp [PortfolioAlloter.calculate_metric, PortfolioAlloter.computeScores,
      getField, stock_A_bad_signal, stock_A_data, Except.bind,
      StockRanker.score_human_rating_1_to_5,
      PortfolioAlloter.score_technicals, List.lookup]
  · simp [StreamlitApp.calculate_metric, StreamlitApp.computeScores,
      getField, stock_A_missing_rsi, stock_A_data, Except.bind]

/-- Witness for C5 applying the no-partial-result conjunct at the concrete
missing-field record. -/
theorem c5_witness :
    PortfolioAlloter.calculate_metric [] stock_A_missing_rsi = .ok none :=
  c5_failure_policy.1 [] stock_A_missing_rsi (.keyError "rsi")
    (by simp [PortfolioAlloter.computeScores, getField, stock_A_missing_rsi,
      stock_A_data, Except.bind])

/-- C5 counterexample: the claim says an out-of-range ordinal rating fails
the whole evaluation for every variant, but the interactive variant returns
a full result for a consistency rating of 7. -/
theorem c5_counterexample :
    (StreamlitApp.calculate_metric my_weights stock_A_rating7).isOk = true := by
  obtain ⟨total, ht⟩ := aggregate_ok_of_keys
    [("pe", 100), ("peg", 100), ("rsi", 100), ("de", 1700/19),
     ("profit_growth", 72), ("consistency", 150), ("holdings", 75),
     ("delta", 275/3), ("capex", 75), ("technicals", 100)]
    my_weights 0 (by decide)
  rw [StreamlitApp.calculate_metric, computeScores_soft_A7]
  simp only []
  rw [ht]
  rfl

/-- A successful association-list lookup returns one of the stored values. -/
theorem lookup_value_mem (l : List (String × ℚ)) (k : String) (v : ℚ)
    (h : l.lookup k = some v) : v ∈ l.map Prod.snd := by
  induction l with
  | nil => simp [List.lookup] at h
  | cons kv rest ih =>
    obtain ⟨k', v'⟩ := kv
    rw [List.lookup] at h
    cases hb : (k == k') with
    | true => rw [hb] at h; simp only [Option.some.injEq] at h; simp [h]
    | false => rw [hb] at h; simpa using Or.inr (ih h)

/-- Any value returned by the strict technicals scorer lies in [0, 100]. -/
theorem score_technicals_strict_range (s : String) (v : ℚ)
    (h : PortfolioAlloter.score_technicals s = .ok v) : 0 ≤ v ∧ v ≤ 100 := by
  simp only [PortfolioAlloter.score_technicals] at h
  cases hl : [("near support", (100.0 : ℚ)), ("nothing", 50.0),
      ("near resistance", 0.0)].lookup s with
  | none => rw [hl] at h; simp at h
  | some w =>
    rw [hl] at h
    simp only [Except.ok.injEq] at h
    subst h
    have hm := lookup_value_mem _ _ _ hl
    simp only [List.map_cons, List.map_nil, List.mem_cons,
      List.not_mem_nil, or_false] at hm
    rcases hm with h | h | h <;> subst h <;> norm_num

/-- Any value returned by the soft technicals scorer lies in [0, 100]. -/
theorem score_technicals_soft_range (s : String) :
    0 ≤ StreamlitApp.score_technicals s ∧ StreamlitApp.score_technicals s ≤ 100 := by
  simp only [StreamlitApp.score_technicals]
  cases hl : [("near support", (100.0 : ℚ)), ("nothing", 50.0),
      ("near resistance", 0.0)].lookup s with
  | none => norm_num
  | some w =>
    simp only [Option.getD_some]
    have hm := lookup_value_mem _ _ _ hl
    simp only [List.map_cons, List.map_nil, List.mem_cons,
      List.not_mem_nil, or_false] at hm
    rcases hm with h | h | h <;> subst h <;> norm_num

/-- C2 (amended): every per-factor scoring function of both variants returns
a value in [0, 100] — except the interactive variant's rating mapper, which
performs no validation and stays in range only for ratings in [1, 5]. -/
theorem c2_range_closure :
    (∀ s i : ℚ, 0 ≤ StockRanker.score_pe_ratio s i ∧
      StockRanker.score_pe_ratio s i ≤ 100) ∧
    (∀ x : ℚ, 0 ≤ StockRanker.score_peg_ratio x ∧
      StockRanker.score_peg_ratio x ≤ 100) ∧
    (∀ x : ℚ, 0 ≤ StockRanker.score_rsi x ∧ StockRanker.score_rsi x ≤ 100) ∧
    (∀ x : ℚ, 0 ≤ StockRanker.score_debt_to_equity x ∧
      StockRanker.score_debt_to_equity x ≤ 100) ∧
    (∀ x : ℚ, 0 ≤ StockRanker.score_profit_growth x ∧
      StockRanker.score_profit_growth x ≤ 100) ∧
    (∀ p f d : ℚ, 0 ≤ StockRanker.score_holdings p f d ∧
      StockRanker.score_holdings p f d ≤ 100) ∧
    (∀ p f d : ℚ, 0 ≤ StockRanker.score_holding_delta p f d ∧
      StockRanker.score_holding_delta p f d ≤ 100) ∧
    (∀ (r : ℤ) (v : ℚ), StockRanker.score_human_rating_1_to_5 r = .ok v →
      0 ≤ v ∧ v ≤ 100) ∧
    (∀ r : ℤ, 1 ≤ r → r ≤ 5 →
      0 ≤ StockRanker.score_human_rating r ∧ StockRanker.score_human_rating r ≤ 100) ∧
    (∀ (s : String) (v : ℚ), PortfolioAlloter.score_technicals s = .ok v →
      0 ≤ v ∧ v ≤ 100) ∧
    (∀ s : String, 0 ≤ StreamlitApp.score_technicals s ∧
      StreamlitApp.score_technicals s ≤ 100) := by
  refine ⟨fun s i => ?_, fun x => ?_, fun x => ?_, fun x => ?_, fun x => ?_,
    fun p f d => ?_, fun p f d => ?_, fun r v h => ?_, fun r h1 h2 => ?_,
    score_technicals_strict_range, score_technicals_soft_range⟩
  · simp only [StockRanker.score_pe_ratio]
    split_ifs with h1 h2 h3
    · norm_num
    · norm_num
    · norm_num
    · push_neg at h2 h3
      constructor
      · apply div_nonneg _ (by norm_num)
        nlinarith [h3]
      · rw [div_le_iff (by norm_num : (0:ℚ) < 2.0 - 0.7)]
        nlinarith [h2]
  · simp only [StockRanker.score_peg_ratio]
    split_ifs with h1 h2 h3
    · norm_num
    · norm_num
    · norm_num
    · push_neg at h2 h3
      constructor
      · apply div_nonneg _ (by norm_num)
        nlinarith [h3]
      · rw [div_le_iff (by norm_num : (0:ℚ) < 2.0 - 0.8)]
        nlinarith [h2]
  · simp only [StockRanker.score_rsi]
    split_ifs with h1 h2
    · norm_num
    · norm_num
    · push_neg at h1 h2
      constructor
      · apply div_nonneg _ (by norm_num)
        nlinarith [h2]
      · rw [div_le_iff (by norm_num : (0:ℚ) < 70.0 - 30.0)]
        nlinarith [h1]
  · simp only [StockRanker.score_debt_to_equity]
    split_ifs with h1 h2
    · norm_num
    · norm_num
    · push_neg at h1 h2
      constructor
      · apply div_nonneg _ (by norm_num)
        nlinarith [h2]
      · rw [div_le_iff (by norm_num : (0:ℚ) < 2.0 - 0.1)]
        nlinarith [h1]
  · simp only [StockRanker.score_profit_growth]
    split_ifs with h1 h2
    · norm_num
    · norm_num
    · push_neg at h1 h2
      constructor
      · apply div_nonneg _ (by norm_num)
        nlinarith [h2]
      · rw [div_le_iff (by norm_num : (0:ℚ) < 25.0)]
        nlinarith [h1]
  · simp only [StockRanker.score_holdings]
    split_ifs with h1 h2
    · norm_num
    · norm_num
    · push_neg at h1 h2
      constructor
      · apply div_nonneg _ (by norm_num)
        nlinarith [h2]
      · rw [div_le_iff (by norm_num : (0:ℚ) < 80.0 - 40.0)]
        nlinarith [h1]
  · simp only [StockRanker.score_holding_delta]
    split_ifs with h1 h2
    · norm_num
    · norm_num
    · push_neg at h1 h2
      constructor
      · apply div_nonneg _ (by norm_num)
        nlinarith [h2]
      · rw [div_le_iff (by norm_num : (0:ℚ) < 6.0)]
        nlinarith [h1]
  · rw [StockRanker.score_human_rating_1_to_5] at h
    split_ifs at h with hr
    obtain ⟨hr1, hr2⟩ := hr
    simp only [Except.ok.injEq] at h
    subst h
    have hq1 : (1 : ℚ) ≤ (r : ℚ) := by exact_mod_cast hr1
    have hq2 : (r : ℚ) ≤ 5 := by exact_mod_cast hr2
    constructor <;> nlinarith
  · simp only [StockRanker.score_human_rating]
    have hq1 : (1 : ℚ) ≤ (r : ℚ) := by exact_mod_cast h1
    have hq2 : (r : ℚ) ≤ 5 := by exact_mod_cast h2
    constructor <;> nlinarith

/-- Witness for C2 instantiating the hypothesis-bearing conjuncts: the
strict rating mapper at 3, the soft rating mapper at 2, and the strict
technicals scorer at "nothing". -/
theorem c2_witness :
    (0 ≤ (50 : ℚ) ∧ (50 : ℚ) ≤ 100) ∧
    (0 ≤ StockRanker.score_human_rating 2 ∧ StockRanker.score_human_rating 2 ≤ 100) ∧
    (0 ≤ StockRanker.score_rsi 45 ∧ StockRanker.score_rsi 45 ≤ 100) :=
  ⟨c2_range_closure.2.2.2.2.2.2.2.1 3 50
      (by norm_num [StockRanker.score_human_rating_1_to_5]),
   c2_range_closure.2.2.2.2.2.2.2.2.1 2 (by decide) (by decide),
   c2_range_closure.2.2.1 45⟩

/-- C2 counterexample: the interactive variant's rating mapper returns 125
for the integer rating 6, outside [0, 100]. -/
theorem c2_counterexample :
    StockRanker.score_human_rating 6 = 125 ∧
    ¬ (StockRanker.score_human_rating 6 ≤ 100) := by
  norm_num [StockRanker.score_human_rating]

/-- C1 (amended): on any fully-scored record, raw_score is the sum over the
configured weight keys of score times weight and the final metric is
`5 + (raw/100) * (10 - 5)`; the strict batch variant rounds the final
metric, the raw score and every breakdown entry to 2 decimal digits, while
the interactive variant rounds only the final metric and the raw score and
returns the breakdown entries unrounded. -/
theorem c1_aggregate_evaluation :
    (∀ (w : List (String × ℚ)) (d : StockData)
        (scores : List (String × ℚ)) (total : ℚ),
      PortfolioAlloter.computeScores d = .ok scores →
      aggregate scores w 0 = .ok total →
      total = (w.map (fun kv => ((scores.lookup kv.1).getD 0) * kv.2)).sum ∧
      PortfolioAlloter.calculate_metric w d =
        .ok (some { final_allocation_metric := round2 (5 + total / 100 * (10 - 5))
                    total_weighted_score := round2 total
                    individual_scores := scores.map (fun p => (p.1, round2 p.2)) })) ∧
    (∀ (w : List (String × ℚ)) (d : StockData)
        (scores : List (String × ℚ)) (total : ℚ),
      StreamlitApp.computeScores d = .ok scores →
      aggregate scores w 0 = .ok total →
      total = (w.map (fun kv => ((scores.lookup kv.1).getD 0) * kv.2)).sum ∧
      StreamlitApp.calculate_metric w d =
        .ok { final_allocation := round2 (5 + total / 100 * (10 - 5))
              raw_score := round2 total
              breakdown := scores }) :=
  ⟨fun w d scores total h1 h2 =>
    ⟨by simpa using aggregate_ok_sum scores w 0 total h2,
     strict_metric_eq w d scores total h1 h2⟩,
   fun w d scores total h1 h2 =>
    ⟨by simpa using aggregate_ok_sum scores w 0 total h2,
     soft_metric_eq w d scores total h1 h2⟩⟩

/-- Witness for C1 at the GoodValueBuy record with the reference weights. -/
theorem c1_witness :
    (101533 / 1140 : ℚ) =
      (my_weights.map (fun kv =>
        (([("pe", (100:ℚ)), ("peg", 100), ("rsi", 100), ("de", 1700/19),
           ("profit_growth", 72), ("consistency", 75), ("holdings", 75),
           ("delta", 275/3), ("capex", 75), ("technicals", 100)].lookup kv.1).getD 0)
            * kv.2)).sum ∧
    PortfolioAlloter.calculate_metric my_weights stock_A_data =
      .ok (some { final_allocation_metric :=
                    round2 (5 + (101533/1140) / 100 * (10 - 5))
                  total_weighted_score := round2 (101533/1140)
                  individual_scores :=
                    [("pe", (100:ℚ)), ("peg", 100), ("rsi", 100), ("de", 1700/19),
                     ("profit_growth", 72), ("consistency", 75), ("holdings", 75),
                     ("delta", 275/3), ("capex", 75), ("technicals", 100)].map
                      (fun p => (p.1, round2 p.2)) }) :=
  c1_aggregate_evaluation.1 my_weights stock_A_data _ _ computeScores_A aggregate_A

/-- C1 counterexample: the interactive variant reports the GoodValueBuy
de breakdown entry as the unrounded 1700/19, which is not a 2-decimal
value. -/
theorem c1_counterexample :
    StreamlitApp.calculate_metric my_weights stock_A_data =
      .ok { final_allocation := 9.45
            raw_score := 89.06
            breakdown := [("pe", 100), ("peg", 100), ("rsi", 100), ("de", 1700/19),
              ("profit_growth", 72), ("consistency", 75), ("holdings", 75),
              ("delta", 275/3), ("capex", 75), ("technicals", 100)] } ∧
    round2 (1700/19) ≠ 1700/19 := by
  constructor
  · have hm := soft_metric_eq my_weights stock_A_data _ _ computeScores_soft_A aggregate_A
    rw [hm]
    have hfin : round2 (215533/22800) = (9.45 : ℚ) :=
      round2_eq_down_r _ _ 945 (by norm_num) (by norm_num) (by norm_num)
    have hraw : round2 (101533/1140) = (89.06 : ℚ) :=
      round2_eq_down_r _ _ 8906 (by norm_num) (by norm_num) (by norm_num)
    norm_num [hfin, hraw]
  · have h : round2 (1700/19) = (8947/100 : ℚ) :=
      round2_eq_down_r _ _ 8947 (by norm_num) (by norm_num) (by norm_num)
    rw [h]
    norm_num

/-- The pe score is non-increasing in stock_pe (hence in the ratio) on the
interpolation zone, for a fixed positive industry PE. -/
theorem mono_pe (s1 s2 ipe : ℚ) (hipe : 0 < ipe) (h1 : 7/10 ≤ s1 / ipe)
    (h12 : s1 ≤ s2) (h2 : s2 / ipe ≤ 2) :
    StockRanker.score_pe_ratio s2 ipe ≤ StockRanker.score_pe_ratio s1 ipe := by
  have hr12 : s1 / ipe ≤ s2 / ipe :=
    (div_le_div_iff hipe hipe).mpr (mul_le_mul_of_nonneg_right h12 hipe.le)
  have hq1 : (0:ℚ) < s1 / ipe := lt_of_lt_of_le (by norm_num) h1
  have hs1 : 0 < s1 := by
    have h' := mul_pos hq1 hipe
    rwa [div_mul_cancel₀ _ (ne_of_gt hipe)] at h'
  have hs2 : 0 < s2 := lt_of_lt_of_le hs1 h12
  simp only [StockRanker.score_pe_ratio]
  rw [if_neg (show ¬(s2 ≤ 0 ∨ ipe ≤ 0) by push_neg; exact ⟨hs2, hipe⟩),
    if_neg (show ¬(s1 ≤ 0 ∨ ipe ≤ 0) by push_neg; exact ⟨hs1, hipe⟩)]
  split_ifs <;>
    first
      | linarith
      | exact div_nonneg (by linarith) (by norm_num)
      | (rw [div_le_iff (by norm_num)]; nlinarith)
      | (rw [div_le_div_iff (by norm_num) (by norm_num)]; nlinarith)

/-- The peg score is non-increasing on the interpolation zone [0.8, 2]. -/
theorem mono_peg (x y : ℚ) (hx : 4/5 ≤ x) (hxy : x ≤ y) (hy : y ≤ 2) :
    StockRanker.score_peg_ratio y ≤ StockRanker.score_peg_ratio x := by
  simp only [StockRanker.score_peg_ratio]
  split_ifs <;>
    first
      | linarith
      | exact div_nonneg (by linarith) (by norm_num)
      | (rw [div_le_iff (by norm_num)]; nlinarith)
      | (rw [div_le_div_iff (by norm_num) (by norm_num)]; nlinarith)

/-- The rsi score is non-increasing on the interpolation zone [30, 70]. -/
theorem mono_rsi (x y : ℚ) (hx : 30 ≤ x) (hxy : x ≤ y) (hy : y ≤ 70) :
    StockRanker.score_rsi y ≤ StockRanker.score_rsi x := by
  simp only [StockRanker.score_rsi]
  split_ifs <;>
    first
      | linarith
      | exact div_nonneg (by linarith) (by norm_num)
      | (rw [div_le_iff (by norm_num)]; nlinarith)
      | (rw [div_le_div_iff (by norm_num) (by norm_num)]; nlinarith)

/-- The debt-to-equity score is non-increasing on the zone [0.1, 2]. -/
theorem mono_de (x y : ℚ) (hx : 1/10 ≤ x) (hxy : x ≤ y) (hy : y ≤ 2) :
    StockRanker.score_debt_to_equity y ≤ StockRanker.score_debt_to_equity x := by
  simp only [StockRanker.score_debt_to_equity]
  split_ifs <;>
    first
      | linarith
      | exact div_nonneg (by linarith) (by norm_num)
      | (rw [div_le_iff (by norm_num)]; nlinarith)
      | (rw [div_le_div_iff (by norm_num) (by norm_num)]; nlinarith)

/-- The profit-growth score is non-decreasing on the zone [0, 25]. -/
theorem mono_profit_growth (x y : ℚ) (hx : 0 ≤ x) (hxy : x ≤ y) (hy : y ≤ 25) :
    StockRanker.score_profit_growth x ≤ StockRanker.score_profit_growth y := by
  simp only [StockRanker.score_profit_growth]
  split_ifs <;>
    first
      | linarith
      | exact div_nonneg (by linarith) (by norm_num)
      | (rw [div_le_iff (by norm_num)]; nlinarith)
      | (rw [div_le_div_iff (by norm_num) (by norm_num)]; nlinarith)

/-- The holdings score is non-decreasing in the total holding on [40, 80]. -/
theorem mono_holdings (p1 f1 d1 p2 f2 d2 : ℚ) (hx : 40 ≤ p1 + f1 + d1)
    (hxy : p1 + f1 + d1 ≤ p2 + f2 + d2) (hy : p2 + f2 + d2 ≤ 80) :
    StockRanker.score_holdings p1 f1 d1 ≤ StockRanker.score_holdings p2 f2 d2 := by
  simp only [StockRanker.score_holdings]
  split_ifs <;>
    first
      | linarith
      | exact div_nonneg (by linarith) (by norm_num)
      | (rw [div_le_iff (by norm_num)]; nlinarith)
      | (rw [div_le_div_iff (by norm_num) (by norm_num)]; nlinarith)

/-- The holding-delta score is non-decreasing in the weighted delta on
[-3, 3]. -/
theorem mono_holding_delta (p1 f1 d1 p2 f2 d2 : ℚ)
    (hx : -3 ≤ p1 * 2.0 + f1 * 1.5 + d1 * 1.0)
    (hxy : p1 * 2.0 + f1 * 1.5 + d1 * 1.0 ≤ p2 * 2.0 + f2 * 1.5 + d2 * 1.0)
    (hy : p2 * 2.0 + f2 * 1.5 + d2 * 1.0 ≤ 3) :
    StockRanker.score_holding_delta p1 f1 d1 ≤
      StockRanker.score_holding_delta p2 f2 d2 := by
  simp only [StockRanker.score_holding_delta]
  split_ifs <;>
    first
      | linarith
      | exact div_nonneg (by linarith) (by norm_num)
      | (rw [div_le_iff (by norm_num)]; nlinarith)
      | (rw [div_le_div_iff (by norm_num) (by norm_num)]; nlinarith)

/-- The soft rating mapper is non-decreasing in the rating. -/
theorem mono_human_rating (r1 r2 : ℤ) (h : r1 ≤ r2) :
    StockRanker.score_human_rating r1 ≤ StockRanker.score_human_rating r2 := by
  simp only [StockRanker.score_human_rating]
  have hq : (r1 : ℚ) ≤ (r2 : ℚ) := by exact_mod_cast h
  nlinarith

/-- C9: each per-factor scoring function is monotonic in its stated quality
direction on the interpolation zone between its two anchors, and returns
exactly 100 at the ideal anchor and exactly 0 at the poor anchor. -/
theorem c9_monotonicity_and_anchors :
    (∀ s1 s2 ipe : ℚ, 0 < ipe → 7/10 ≤ s1 / ipe → s1 ≤ s2 → s2 / ipe ≤ 2 →
      StockRanker.score_pe_ratio s2 ipe ≤ StockRanker.score_pe_ratio s1 ipe) ∧
    (∀ x y : ℚ, 4/5 ≤ x → x ≤ y → y ≤ 2 →
      StockRanker.score_peg_ratio y ≤ StockRanker.score_peg_ratio x) ∧
    (∀ x y : ℚ, 30 ≤ x → x ≤ y → y ≤ 70 →
      StockRanker.score_rsi y ≤ StockRanker.score_rsi x) ∧
    (∀ x y : ℚ, 1/10 ≤ x → x ≤ y → y ≤ 2 →
      StockRanker.score_debt_to_equity y ≤ StockRanker.score_debt_to_equity x) ∧
    (∀ x y : ℚ, 0 ≤ x → x ≤ y → y ≤ 25 →
      StockRanker.score_profit_growth x ≤ StockRanker.score_profit_growth y) ∧
    (∀ p1 f1 d1 p2 f2 d2 : ℚ, 40 ≤ p1 + f1 + d1 →
      p1 + f1 + d1 ≤ p2 + f2 + d2 → p2 + f2 + d2 ≤ 80 →
      StockRanker.score_holdings p1 f1 d1 ≤ StockRanker.score_holdings p2 f2 d2) ∧
    (∀ p1 f1 d1 p2 f2 d2 : ℚ, -3 ≤ p1 * 2.0 + f1 * 1.5 + d1 * 1.0 →
      p1 * 2.0 + f1 * 1.5 + d1 * 1.0 ≤ p2 * 2.0 + f2 * 1.5 + d2 * 1.0 →
      p2 * 2.0 + f2 * 1.5 + d2 * 1.0 ≤ 3 →
      StockRanker.score_holding_delta p1 f1 d1 ≤
        StockRanker.score_holding_delta p2 f2 d2) ∧
    (∀ r1 r2 : ℤ, r1 ≤ r2 →
      StockRanker.score_human_rating r1 ≤ StockRanker.score_human_rating r2) ∧
    StockRanker.score_pe_ratio 14 20 = 100 ∧
    StockRanker.score_pe_ratio 40 20 = 0 ∧
    StockRanker.score_peg_ratio 0.8 = 100 ∧
    StockRanker.score_peg_ratio 2 = 0 ∧
    StockRanker.score_rsi 30 = 100 ∧
    StockRanker.score_rsi 70 = 0 ∧
    StockRanker.score_debt_to_equity 0.1 = 100 ∧
    StockRanker.score_debt_to_equity 2 = 0 ∧
    StockRanker.score_profit_growth 25 = 100 ∧
    StockRanker.score_profit_growth 0 = 0 ∧
    StockRanker.score_holdings 80 0 0 = 100 ∧
    StockRanker.score_holdings 40 0 0 = 0 ∧
    StockRanker.score_holding_delta 1.5 0 0 = 100 ∧
    StockRanker.score_holding_delta (-1.5) 0 0 = 0 ∧
    StockRanker.score_human_rating_1_to_5 5 = .ok 100 ∧
    StockRanker.score_human_rating_1_to_5 1 = .ok 0 ∧
    PortfolioAlloter.score_technicals "near support" = .ok 100 ∧
    PortfolioAlloter.score_technicals "near resistance" = .ok 0 :=
  ⟨mono_pe, mono_peg, mono_rsi, mono_de, mono_profit_growth, mono_holdings,
   mono_holding_delta, mono_human_rating,
   by norm_num [StockRanker.score_pe_ratio],
   by norm_num [StockRanker.score_pe_ratio],
   by norm_num [StockRanker.score_peg_ratio],
   by norm_num [StockRanker.score_peg_ratio],
   by norm_num [StockRanker.score_rsi],
   by norm_num [StockRanker.score_rsi],
   by norm_num [StockRanker.score_debt_to_equity],
   by norm_num [StockRanker.score_debt_to_equity],
   by norm_num [StockRanker.score_profit_growth],
   by norm_num [StockRanker.score_profit_growth],
   by norm_num [StockRanker.score_holdings],
   by norm_num [StockRanker.score_holdings],
   by norm_num [StockRanker.score_holding_delta],
   by norm_num [StockRanker.score_holding_delta],
   by norm_num [StockRanker.score_human_rating_1_to_5],
   by norm_num [StockRanker.score_human_rating_1_to_5],
   by norm_num [PortfolioAlloter.score_technicals, List.lookup],
   by simp [PortfolioAlloter.score_technicals, List.lookup] <;> norm_num⟩

/-- Witness for C9 applying the monotonicity conjuncts at concrete points of
each interpolation zone. -/
theorem c9_witness :
    StockRanker.score_pe_ratio 20 20 ≤ StockRanker.score_pe_ratio 15 20 ∧
    StockRanker.score_rsi 50 ≤ StockRanker.score_rsi 40 ∧
    StockRanker.score_profit_growth 10 ≤ StockRanker.score_profit_growth 20 ∧
    StockRanker.score_holding_delta 0 0 0 ≤ StockRanker.score_holding_delta 1 0 0 :=
  ⟨c9_monotonicity_and_anchors.1 15 20 20 (by norm_num) (by norm_num)
     (by norm_num) (by norm_num),
   c9_monotonicity_and_anchors.2.2.1 40 50 (by norm_num) (by norm_num) (by norm_num),
   c9_monotonicity_and_anchors.2.2.2.2.1 10 20 (by norm_num) (by norm_num) (by norm_num),
   c9_monotonicity_and_anchors.2.2.2.2.2.2.1 0 0 0 1 0 0 (by norm_num) (by norm_num)
     (by norm_num)⟩

/-- Whenever the strict score computation succeeds, the score dict has
exactly the ten factor names as keys, in insertion order. -/
theorem computeScores_keys (d : StockData) (scores : List (String × ℚ))
    (h : PortfolioAlloter.computeScores d = .ok scores) :
    scores.map Prod.fst = factorNames := by
  simp only [PortfolioAlloter.computeScores, Except.bind, getField] at h
  repeat' split at h
  all_goals cases h
  simp [factorNames]

/-- C10: the weighted aggregation iterates over exactly the keys of the
stored weight configuration: with weight keys drawn from the ten factor
names the evaluation succeeds and raw_score sums only the weighted factors
(unweighted factors are silently excluded), while a weight key outside the
factor names escapes as an uncaught KeyError rather than being caught by
the missing-field handling. -/
theorem c10_weight_key_iteration :
    (∀ (w : List (String × ℚ)) (d : StockData) (scores : List (String × ℚ)),
      PortfolioAlloter.computeScores d = .ok scores →
      (∀ k ∈ w.map Prod.fst, k ∈ factorNames) →
      PortfolioAlloter.calculate_metric w d =
        .ok (some { final_allocation_metric :=
                      round2 (5 + ((w.map (fun kv =>
                        ((scores.lookup kv.1).getD 0) * kv.2)).sum) / 100 * (10 - 5))
                    total_weighted_score :=
                      round2 ((w.map (fun kv =>
                        ((scores.lookup kv.1).getD 0) * kv.2)).sum)
                    individual_scores :=
                      scores.map (fun p => (p.1, round2 p.2)) })) ∧
    PortfolioAlloter.calculate_metric [("pe", 1)] stock_A_data =
      .ok (some { final_allocation_metric := 10
                  total_weighted_score := 100
                  individual_scores :=
                    [("pe", 100), ("peg", 100), ("rsi", 100), ("de", 89.47),
                     ("profit_growth", 72), ("consistency", 75), ("holdings", 75),
                     ("delta", 91.67), ("capex", 75), ("technicals", 100)] }) ∧
    PortfolioAlloter.calculate_metric [("pe", 1/2), ("hype", 1/2)] stock_A_data =
      .error (.keyError "hype") := by
  refine ⟨fun w d scores h1 hkeys => ?_, ?_, ?_⟩
  · have hsome : ∀ k ∈ w.map Prod.fst, (scores.lookup k).isSome = true := by
      intro k hk
      apply lookup_isSome_of_mem
      rw [computeScores_keys d scores h1]
      exact hkeys k hk
    obtain ⟨total, ht⟩ := aggregate_ok_of_keys scores w 0 hsome
    have hsum := aggregate_ok_sum scores w 0 total ht
    rw [strict_metric_eq w d scores total h1 ht]
    rw [hsum]
    norm_num
  · have hagg : aggregate
        [("pe", 100), ("peg", 100), ("rsi", 100), ("de", 1700/19),
         ("profit_growth", 72), ("consistency", 75), ("holdings", 75),
         ("delta", 275/3), ("capex", 75), ("technicals", 100)]
        [("pe", 1)] 0 = .ok 100 := by
      simp [aggregate, List.lookup]
    rw [strict_metric_eq [("pe", 1)] stock_A_data _ 100 computeScores_A hagg]
    have hfin : round2 (10 : ℚ) = 10 :=
      round2_eq_down_r _ _ 1000 (by norm_num) (by norm_num) (by norm_num)
    have hraw : round2 (100 : ℚ) = 100 :=
      round2_eq_down_r _ _ 10000 (by norm_num) (by norm_num) (by norm_num)
    have hde : round2 (1700/19) = (89.47 : ℚ) :=
      round2_eq_down_r _ _ 8947 (by norm_num) (by norm_num) (by norm_num)
    have hdelta : round2 (275/3) = (91.67 : ℚ) :=
      round2_eq_up_r _ _ 9166 (by norm_num) (by norm_num) (by norm_num) (by norm_num)
    have h75 : round2 (75 : ℚ) = 75 :=
      round2_eq_down_r _ _ 7500 (by norm_num) (by norm_num) (by norm_num)
    have h72 : round2 (72 : ℚ) = 72 :=
      round2_eq_down_r _ _ 7200 (by norm_num) (by norm_num) (by norm_num)
    norm_num [hfin, hraw, hde, hdelta, h75, h72]
  · rw [PortfolioAlloter.calculate_metric, computeScores_A]
    simp only []
    have hagg : aggregate
        [("pe", 100), ("peg", 100), ("rsi", 100), ("de", 1700/19),
         ("profit_growth", 72), ("consistency", 75), ("holdings", 75),
         ("delta", 275/3), ("capex", 75), ("technicals", 100)]
        [("pe", 1/2), ("hype", 1/2)] 0 = .error (.keyError "hype") := by
      simp [aggregate, List.lookup]
    rw [hagg]

/-- Witness for C10 applying the key-subset conjunct with the two-factor
weight list {pe: 0.5, rsi: 0.5} on the GoodValueBuy record. -/
theorem c10_witness :
    PortfolioAlloter.calculate_metric [("pe", 1/2), ("rsi", 1/2)] stock_A_data =
      .ok (some { final_allocation_metric :=
                    round2 (5 + (([(("pe" : String), (1:ℚ)/2), ("rsi", 1/2)].map (fun kv =>
                      (([("pe", (100:ℚ)), ("peg", 100), ("rsi", 100), ("de", 1700/19),
                         ("profit_growth", 72), ("consistency", 75), ("holdings", 75),
                         ("delta", 275/3), ("capex", 75), ("technicals", 100)].lookup
                            kv.1).getD 0) * kv.2)).sum) / 100 * (10 - 5))
                  total_weighted_score :=
                    round2 (([(("pe" : String), (1:ℚ)/2), ("rsi", 1/2)].map (fun kv =>
                      (([("pe", (100:ℚ)), ("peg", 100), ("rsi", 100), ("de", 1700/19),
                         ("profit_growth", 72), ("consistency", 75), ("holdings", 75),
                         ("delta", 275/3), ("capex", 75), ("technicals", 100)].lookup
                            kv.1).getD 0) * kv.2)).sum)
                  individual_scores :=
                    [("pe", (100:ℚ)), ("peg", 100), ("rsi", 100), ("de", 1700/19),
                     ("profit_growth", 72), ("consistency", 75), ("holdings", 75),
                     ("delta", 275/3), ("capex", 75), ("technicals", 100)].map
                      (fun p => (p.1, round2 p.2)) }) :=
  c10_weight_key_iteration.1 [("pe", 1/2), ("rsi", 1/2)] stock_A_data _
    computeScores_A (by decide)
